import Mathlib

/-
Shallow embedding of OtsuWinHdlr (src/otsuwinhdlr/classes.py).

The Python module keeps a process-wide dict Window.handlers mapping OS
window handles (ints) to the owning Window object.  Here the registry is
threaded explicitly as an association list in insertion order (Python 3
dicts preserve insertion order, which matters because Window.refresh
iterates the dict).  The OS call surface (the User32 wrapper imported
from .cfg, which is not part of src/) is an abstract capability record.
Window objects are immutable records; the class hierarchy
(Window / RecycleBinFolder / Explorer) becomes a kind tag, and the
dynamically dispatched __bool__ becomes a kind-directed function.
-/

/-- Window rectangle as returned by GetWindowRect, destructured in the
source as left, top, right, bottom (classes.py line 154). -/
structure Rect where
  left : Int
  top : Int
  right : Int
  bottom : Int
deriving DecidableEq

/-- Modelled from the spec: the OS Window Capability (section 6), the User32
wrapper imported from the repository's cfg module, which is absent from src/.
Each field is one primitive: find-window-by-title (indexed by the attempt
number, since successive polls may see different OS states), check-enabled,
get-text, get-rect, move/resize, and send-message (used with the WM_CLOSE
code 0x0010).  Everything in classes.py treats these as opaque calls. -/
structure User32 where
  FindWindowExW : Nat → String → Nat
  IsWindowEnabled : Nat → Bool
  GetWindowTextW : Nat → String
  GetWindowRect : Nat → Rect
  MoveWindow : Nat → Int → Int → Int → Int → Bool → Bool
  SendMessageW : Nat → Nat → Nat → Nat → Int

/-- Which Python class a window object was constructed from. -/
inductive WKind where
  | base
  | recycleBin
  | explorer
deriving DecidableEq

/-- One window object.  The base class stores only the handle
(self.__hdlr, classes.py line 39); firstTitle is none for it because a
plain Window has no __first_title attribute.  RecycleBinFolder stores the
fixed string, Explorer stores the title captured right after acquisition.
allowChdir is meaningful only for Explorer and defaults to false. -/
structure WindowObj where
  hdlr : Nat
  kind : WKind
  firstTitle : Option String
  allowChdir : Bool
deriving DecidableEq

/-- The state of the process-wide dict Window.handlers (classes.py line
16), in insertion order. -/
abbrev Handlers := List (Nat × WindowObj)

/-- Dict key lookup on the registry. -/
def lookupH : Handlers → Nat → Option WindowObj
  | [], _ => none
  | (k, w) :: rest, h => if k = h then some w else lookupH rest h

/-- Python membership test, hdlr in Window.handlers. -/
def containsH (reg : Handlers) (h : Nat) : Bool :=
  (lookupH reg h).isSome

/-- Python del Window.handlers[h] guarded by a membership check, so it is
a no-op when the key is absent. -/
def eraseH : Handlers → Nat → Handlers
  | [], _ => []
  | (k, v) :: rest, h =>
    if k = h then eraseH rest h else (k, v) :: eraseH rest h

/-- Python dict assignment handlers[h] = w: replaces in place if the key
exists, otherwise appends at the end. -/
def setH : Handlers → Nat → WindowObj → Handlers
  | [], h, w => [(h, w)]
  | (k, v) :: rest, h, w =>
    if k = h then (k, w) :: rest else (k, v) :: setH rest h w

/-- Window.__bool__ (classes.py lines 45-48): false when the handle is not
a key of Window.handlers, otherwise the result of IsWindowEnabled. -/
def Window_bool (u : User32) (reg : Handlers) (w : WindowObj) : Bool :=
  if !(containsH reg w.hdlr) then false
  else u.IsWindowEnabled w.hdlr

/-- RecycleBinFolder.__bool__ (classes.py lines 181-184). -/
def RecycleBinFolder_bool (u : User32) (reg : Handlers) (w : WindowObj) : Bool :=
  if !(Window_bool u reg w) then false
  else u.GetWindowTextW w.hdlr == w.firstTitle.getD ""

/-- Explorer.__bool__ (classes.py lines 222-227). -/
def Explorer_bool (u : User32) (reg : Handlers) (w : WindowObj) : Bool :=
  if !(Window_bool u reg w) then false
  else if w.allowChdir then true
  else u.GetWindowTextW w.hdlr == w.firstTitle.getD ""

/-- The dynamically dispatched truth test not wd / while self, resolved by
the object's class. -/
def isLive (u : User32) (reg : Handlers) (w : WindowObj) : Bool :=
  match w.kind with
  | WKind.base => Window_bool u reg w
  | WKind.recycleBin => RecycleBinFolder_bool u reg w
  | WKind.explorer => Explorer_bool u reg w

/-- Outcome of Window.close: the SendMessageW response, the updated
registry, and the handles a WM_CLOSE signal was sent to. -/
structure CloseResult where
  res : Int
  handlers : Handlers
  sent : List Nat
deriving DecidableEq

/-- Window.close (classes.py lines 53-63): sleep (timing is not modelled),
send WM_CLOSE (0x0010) to the handle, then delete the registry entry if
present.  The registry deletion happens regardless of the response. -/
def Window_close (u : User32) (reg : Handlers) (w : WindowObj) : CloseResult :=
  ⟨u.SendMessageW w.hdlr 0x0010 0 0, eraseH reg w.hdlr, [w.hdlr]⟩

/-- A raised Python exception. -/
inductive PyError where
  | runtimeError
  | timeoutError (msg : String)
deriving DecidableEq

/-- Outcome of Window.refresh: err is some when the loop raised
(RuntimeError: dictionary changed size during iteration), and the registry
and signal list reflect the mutations performed before the raise. -/
structure RefreshResult where
  err : Option PyError
  handlers : Handlers
  sent : List Nat
deriving DecidableEq

/-- The for-loop of Window.refresh (classes.py lines 96-98) over a dict
iterator.  A CPython dict iterator raises RuntimeError at the first
advance after the dict changed size, so the dirty flag records that
cls.close deleted an entry; it is checked before yielding each further
element and before the final StopIteration.  The liveness test not wd
dispatches on the object's class. -/
def refreshLoop (u : User32) :
    List (Nat × WindowObj) → Handlers → Bool → List Nat → RefreshResult
  | [], reg, dirty, sent =>
    ⟨if dirty then some PyError.runtimeError else none, reg, sent⟩
  | (_, w) :: rest, reg, dirty, sent =>
    if dirty then ⟨some PyError.runtimeError, reg, sent⟩
    else if isLive u reg w then refreshLoop u rest reg dirty sent
    else
      refreshLoop u rest (Window_close u reg w).handlers true
        (sent ++ (Window_close u reg w).sent)

/-- Window.refresh (classes.py lines 92-98): iterate the current registry
entries in insertion order, closing each window whose truth test fails. -/
def Window_refresh (u : User32) (reg : Handlers) : RefreshResult :=
  refreshLoop u reg reg false []

/-- What one iteration of the acquisition loop decides. -/
inductive StepOutcome where
  | next (reg : Handlers)
  | success (h : Nat) (reg : Handlers)
  | errored (e : PyError) (reg : Handlers)
deriving DecidableEq

/-- One acquisition attempt together with the number of Window.refresh
invocations it performed. -/
structure StepResult where
  out : StepOutcome
  refreshCalls : Nat
deriving DecidableEq

/-- The body of the polling for-loop in Window.__init__ (classes.py lines
31-40) at attempt i: call FindWindowExW; on 0, poll again; on a handle
already in the registry, run Window.refresh (whose RuntimeError would
propagate out of the constructor), and if the handle is still registered
reset hdlr and continue; otherwise register the freshly built object under
the handle and stop. -/
def Window_init_step (u : User32) (title : String) (mkObj : Nat → WindowObj)
    (reg : Handlers) (i : Nat) : StepResult :=
  if u.FindWindowExW i title = 0 then ⟨StepOutcome.next reg, 0⟩
  else
    if containsH reg (u.FindWindowExW i title) then
      match (Window_refresh u reg).err with
      | some e => ⟨StepOutcome.errored e (Window_refresh u reg).handlers, 1⟩
      | none =>
        if containsH (Window_refresh u reg).handlers (u.FindWindowExW i title) then
          ⟨StepOutcome.next (Window_refresh u reg).handlers, 1⟩
        else
          ⟨StepOutcome.success (u.FindWindowExW i title)
            (setH (Window_refresh u reg).handlers (u.FindWindowExW i title)
              (mkObj (u.FindWindowExW i title))), 1⟩
    else
      ⟨StepOutcome.success (u.FindWindowExW i title)
        (setH reg (u.FindWindowExW i title) (mkObj (u.FindWindowExW i title))), 0⟩

/-- The timeout message raised at classes.py lines 42-43. -/
def timeoutMsg (title : String) : String :=
  "ウィンドウ\"" ++ title ++ "\"のハンドルを取得できませんでした。"

/-- Result of running the constructor's polling loop: err is some
PyError.timeoutError on the for-else raise (or a propagated RuntimeError
from refresh), hdlr is the acquired handle on success. -/
structure AcqResult where
  err : Option PyError
  hdlr : Nat
  handlers : Handlers
deriving DecidableEq

/-- The whole polling loop of Window.__init__ driven by the external
Timer.wiggle_begin iterator, modelled as yielding n control points
numbered from i.  When the iterator is exhausted without a break, the
for-else clause raises TimeoutError with the title in its message. -/
def Window_init_loop (u : User32) (title : String) (mkObj : Nat → WindowObj) :
    Handlers → Nat → Nat → AcqResult
  | reg, 0, _ => ⟨some (PyError.timeoutError (timeoutMsg title)), 0, reg⟩
  | reg, Nat.succ n, i =>
    match (Window_init_step u title mkObj reg i).out with
    | StepOutcome.next reg2 => Window_init_loop u title mkObj reg2 n (i + 1)
    | StepOutcome.success h reg2 => ⟨none, h, reg2⟩
    | StepOutcome.errored e reg2 => ⟨some e, 0, reg2⟩

/-- The object state a plain Window constructor stores: only the handle
(classes.py line 39).  No first-seen title exists on the base class. -/
def Window_new (h : Nat) : WindowObj :=
  ⟨h, WKind.base, none, false⟩

/-- The object state a RecycleBinFolder stores: the fixed first title is
assigned before acquisition (classes.py line 177). -/
def RecycleBinFolder_new (h : Nat) : WindowObj :=
  ⟨h, WKind.recycleBin, some "ごみ箱", false⟩

/-- The object state an Explorer stores.  In the source __first_title is
assigned from self.title right after super().__init__ returns (classes.py
lines 219-220); no registry or OS access happens between registration and
that assignment, so the fully initialised object is registered here. -/
def Explorer_new (u : User32) (allowChdir : Bool) (h : Nat) : WindowObj :=
  ⟨h, WKind.explorer, some (u.GetWindowTextW h), allowChdir⟩

/-- Outcome of move_window / set_position / set_size: the returned bool,
the updated registry, whether MoveWindow was invoked, and the handles a
WM_CLOSE signal was sent to. -/
structure OpResult where
  ok : Bool
  handlers : Handlers
  movedCalled : Bool
  sent : List Nat
deriving DecidableEq

/-- Window.move_window (classes.py lines 75-90). -/
def Window_move_window (u : User32) (reg : Handlers) (w : WindowObj)
    (x y nw nh : Int) : OpResult :=
  if !(isLive u reg w) then
    ⟨false, (Window_close u reg w).handlers, false, (Window_close u reg w).sent⟩
  else
    ⟨u.MoveWindow w.hdlr x y nw nh true, reg, true, []⟩

/-- Outcome of the size property: the pair it returns, the updated
registry, whether GetWindowRect was queried, and close signals sent. -/
structure SizeResult where
  val : Int × Int
  handlers : Handlers
  rectQueried : Bool
  sent : List Nat
deriving DecidableEq

/-- Window.size (classes.py lines 147-155): on a dead object, close and
return the (-1, -1) sentinel without querying the rectangle; otherwise
absolute differences of the rectangle coordinates. -/
def Window_size (u : User32) (reg : Handlers) (w : WindowObj) : SizeResult :=
  if !(isLive u reg w) then
    ⟨(-1, -1), (Window_close u reg w).handlers, false, (Window_close u reg w).sent⟩
  else
    ⟨(|(u.GetWindowRect w.hdlr).left - (u.GetWindowRect w.hdlr).right|,
      |(u.GetWindowRect w.hdlr).top - (u.GetWindowRect w.hdlr).bottom|),
     reg, true, []⟩

/-- Window.set_position (classes.py lines 100-114): liveness check, then
current size (whose own liveness re-check passes on a live object) with
the new coordinates. -/
def Window_set_position (u : User32) (reg : Handlers) (w : WindowObj)
    (x y : Int) : OpResult :=
  if !(isLive u reg w) then
    ⟨false, (Window_close u reg w).handlers, false, (Window_close u reg w).sent⟩
  else
    ⟨u.MoveWindow w.hdlr x y (Window_size u reg w).val.1
      (Window_size u reg w).val.2 true,
     (Window_size u reg w).handlers, true, (Window_size u reg w).sent⟩

/-- Window.set_size (classes.py lines 116-130): liveness check, then the
current rectangle's top-left with the new width and height. -/
def Window_set_size (u : User32) (reg : Handlers) (w : WindowObj)
    (width height : Int) : OpResult :=
  if !(isLive u reg w) then
    ⟨false, (Window_close u reg w).handlers, false, (Window_close u reg w).sent⟩
  else
    ⟨u.MoveWindow w.hdlr (u.GetWindowRect w.hdlr).left
      (u.GetWindowRect w.hdlr).top width height true, reg, true, []⟩

/-- A concrete OS state: every window enabled, every title reads "docs",
a fixed rectangle, and FindWindowExW always reports handle 7. -/
def uAll : User32 :=
  ⟨fun _ _ => 7, fun _ => true, fun _ => "docs", fun _ => ⟨1, 2, 10, 20⟩,
   fun _ _ _ _ _ _ => true, fun _ _ _ _ => 3⟩

/-- A concrete OS state: no window is ever found and none is enabled. -/
def uNone : User32 :=
  ⟨fun _ _ => 0, fun _ => false, fun _ => "", fun _ => ⟨0, 0, 0, 0⟩,
   fun _ _ _ _ _ _ => true, fun _ _ _ _ => 0⟩

/-- A second, distinct window object that re-registers handle 5. -/
def wOther : WindowObj :=
  ⟨5, WKind.explorer, some "other", true⟩

/-- Membership is decided by lookup. -/
theorem containsH_eq_false_iff (reg : Handlers) (h : Nat) :
    containsH reg h = false ↔ lookupH reg h = none := by
  unfold containsH
  cases lookupH reg h <;> simp

/-- Deleting an absent key leaves the dict unchanged. -/
theorem eraseH_absent (reg : Handlers) (h : Nat)
    (habs : lookupH reg h = none) : eraseH reg h = reg := by
  induction reg with
  | nil => rfl
  | cons hd rest ih =>
    obtain ⟨k, v⟩ := hd
    unfold lookupH at habs
    by_cases hk : k = h
    · simp [hk] at habs
    · rw [if_neg hk] at habs
      simp [eraseH, hk, ih habs]

/-- After deleting a key it is no longer a member. -/
theorem containsH_eraseH_self (reg : Handlers) (h : Nat) :
    containsH (eraseH reg h) h = false := by
  rw [containsH_eq_false_iff]
  induction reg with
  | nil => rfl
  | cons hd rest ih =>
    obtain ⟨k, v⟩ := hd
    by_cases hk : k = h
    · simpa [eraseH, hk] using ih
    · simpa [eraseH, hk, lookupH] using ih

/-- A window whose handle is not registered fails every variant's truth
test, since each one consults Window.__bool__ first. -/
theorem isLive_false_of_not_contains (u : User32) (reg : Handlers)
    (w : WindowObj) (hc : containsH reg w.hdlr = false) :
    isLive u reg w = false := by
  cases hk : w.kind <;>
    simp [isLive, hk, Window_bool, RecycleBinFolder_bool, Explorer_bool, hc]

/-- Assigning a fresh key appends the binding at the end. -/
theorem setH_absent (reg : Handlers) (h : Nat) (w : WindowObj)
    (habs : lookupH reg h = none) : setH reg h w = reg ++ [(h, w)] := by
  induction reg with
  | nil => rfl
  | cons hd rest ih =>
    obtain ⟨k, v⟩ := hd
    unfold lookupH at habs
    by_cases hk : k = h
    · simp [hk] at habs
    · simp [hk] at habs
      simp [setH, hk]
      exact ih habs

/-- Looking up the key just appended. -/
theorem lookupH_append_self (reg : Handlers) (h : Nat) (w : WindowObj)
    (habs : lookupH reg h = none) : lookupH (reg ++ [(h, w)]) h = some w := by
  induction reg with
  | nil => simp [lookupH]
  | cons hd rest ih =>
    obtain ⟨k, v⟩ := hd
    unfold lookupH at habs
    by_cases hk : k = h
    · simp [hk] at habs
    · simp [hk] at habs
      simpa [lookupH, hk] using ih habs

/-- Absence of a key says it is not among the dict's keys. -/
theorem lookupH_eq_none_iff (reg : Handlers) (h : Nat) :
    lookupH reg h = none ↔ h ∉ reg.map Prod.fst := by
  induction reg with
  | nil => simp [lookupH]
  | cons hd rest ih =>
    obtain ⟨k, v⟩ := hd
    by_cases hk : k = h
    · simp [lookupH, hk]
    · simp [lookupH, hk, ih, Ne.symm hk]

/-- Appending a binding for a fresh key keeps the keys duplicate-free. -/
theorem nodup_keys_append (reg : Handlers) (h : Nat) (w : WindowObj)
    (hnd : (reg.map Prod.fst).Nodup) (habs : lookupH reg h = none) :
    ((reg ++ [(h, w)]).map Prod.fst).Nodup := by
  rw [List.map_append]
  rw [List.nodup_append]
  refine ⟨hnd, by simp, ?_⟩
  intro a ha hmem
  simp at hmem
  rw [hmem] at ha
  exact (lookupH_eq_none_iff reg h).mp habs ha

/-- Once the iterated dict has changed size, the very next advance of the
iterator raises, whatever is left to visit. -/
theorem refreshLoop_dirty (u : User32) (pend : List (Nat × WindowObj))
    (reg : Handlers) (sent : List Nat) :
    refreshLoop u pend reg true sent = ⟨some PyError.runtimeError, reg, sent⟩ := by
  cases pend with
  | nil => rfl
  | cons hd rest => obtain ⟨k, w⟩ := hd; rfl

/-- A refresh pass that does not raise closed nothing: the registry and
the set of signalled handles come back exactly as they went in. -/
theorem refreshLoop_ok (u : User32) (pend : List (Nat × WindowObj)) :
    ∀ reg sent, (refreshLoop u pend reg false sent).err = none →
      refreshLoop u pend reg false sent = ⟨none, reg, sent⟩ := by
  induction pend with
  | nil => intro reg sent _; rfl
  | cons hd rest ih =>
    intro reg sent hok
    obtain ⟨k, w⟩ := hd
    by_cases hl : isLive u reg w
    · have h1 : refreshLoop u ((k, w) :: rest) reg false sent =
          refreshLoop u rest reg false sent := by
        simp [refreshLoop, hl]
      rw [h1] at hok ⊢
      exact ih reg sent hok
    · have h1 : refreshLoop u ((k, w) :: rest) reg false sent =
          refreshLoop u rest (Window_close u reg w).handlers true
            (sent ++ (Window_close u reg w).sent) := by
        simp [refreshLoop, hl]
      rw [h1, refreshLoop_dirty] at hok
      simp at hok

/-- Window.refresh returning normally proves it was a no-op. -/
theorem Window_refresh_ok (u : User32) (reg : Handlers)
    (h : (Window_refresh u reg).err = none) :
    Window_refresh u reg = ⟨none, reg, []⟩ :=
  refreshLoop_ok u reg reg [] h

/-- When FindWindowExW reports no window, the attempt just polls again. -/
theorem step_find_zero (u : User32) (title : String) (mkObj : Nat → WindowObj)
    (reg : Handlers) (i : Nat) (hz : u.FindWindowExW i title = 0) :
    Window_init_step u title mkObj reg i = ⟨StepOutcome.next reg, 0⟩ := by
  simp [Window_init_step, hz]

/-- When the found handle is fresh, the attempt registers it at once,
without running refresh. -/
theorem step_fresh (u : User32) (title : String) (mkObj : Nat → WindowObj)
    (reg : Handlers) (i : Nat) (hz : ¬ u.FindWindowExW i title = 0)
    (hc : containsH reg (u.FindWindowExW i title) = false) :
    Window_init_step u title mkObj reg i =
      ⟨StepOutcome.success (u.FindWindowExW i title)
        (setH reg (u.FindWindowExW i title) (mkObj (u.FindWindowExW i title))), 0⟩ := by
  simp [Window_init_step, hz, hc]

/-- When the found handle is already registered and refresh returns
normally, the attempt runs refresh once and then polls again with the
registry untouched. -/
theorem step_taken_ok (u : User32) (title : String) (mkObj : Nat → WindowObj)
    (reg : Handlers) (i : Nat) (hz : ¬ u.FindWindowExW i title = 0)
    (hc : containsH reg (u.FindWindowExW i title) = true)
    (hr : (Window_refresh u reg).err = none) :
    Window_init_step u title mkObj reg i = ⟨StepOutcome.next reg, 1⟩ := by
  simp only [Window_init_step, if_neg hz, hc, if_true]
  rw [Window_refresh_ok u reg hr]
  simp [hc]

/-- When the found handle is already registered and refresh raises, the
exception propagates out of the constructor. -/
theorem step_taken_err (u : User32) (title : String) (mkObj : Nat → WindowObj)
    (reg : Handlers) (i : Nat) (e : PyError) (hz : ¬ u.FindWindowExW i title = 0)
    (hc : containsH reg (u.FindWindowExW i title) = true)
    (hr : (Window_refresh u reg).err = some e) :
    Window_init_step u title mkObj reg i =
      ⟨StepOutcome.errored e (Window_refresh u reg).handlers, 1⟩ := by
  simp only [Window_init_step, if_neg hz, hc, if_true]
  rw [hr]

/-- Unfolding the loop on a poll-again step. -/
theorem loop_succ_next (u : User32) (title : String) (mkObj : Nat → WindowObj)
    (reg reg2 : Handlers) (n i k : Nat)
    (hs : Window_init_step u title mkObj reg i = ⟨StepOutcome.next reg2, k⟩) :
    Window_init_loop u title mkObj reg (n + 1) i =
      Window_init_loop u title mkObj reg2 n (i + 1) := by
  simp [Window_init_loop, hs]

/-- Unfolding the loop on a successful registration. -/
theorem loop_succ_success (u : User32) (title : String) (mkObj : Nat → WindowObj)
    (reg reg2 : Handlers) (n i k h : Nat)
    (hs : Window_init_step u title mkObj reg i = ⟨StepOutcome.success h reg2, k⟩) :
    Window_init_loop u title mkObj reg (n + 1) i = ⟨none, h, reg2⟩ := by
  simp [Window_init_loop, hs]

/-- Unfolding the loop on a propagated exception. -/
theorem loop_succ_errored (u : User32) (title : String) (mkObj : Nat → WindowObj)
    (reg reg2 : Handlers) (n i k : Nat) (e : PyError)
    (hs : Window_init_step u title mkObj reg i = ⟨StepOutcome.errored e reg2, k⟩) :
    Window_init_loop u title mkObj reg (n + 1) i = ⟨some e, 0, reg2⟩ := by
  simp [Window_init_loop, hs]

/-- A successful run of the constructor's polling loop registered its
object under a handle that was absent from the registry at the moment of
insertion, and the registry is exactly the starting one with the new
binding appended: nothing was overwritten and nothing else changed. -/
theorem Window_init_loop_success (u : User32) (title : String)
    (mkObj : Nat → WindowObj) (reg : Handlers) (n : Nat) : ∀ i res,
    Window_init_loop u title mkObj reg n i = res → res.err = none →
    lookupH reg res.hdlr = none ∧
      res.handlers = reg ++ [(res.hdlr, mkObj res.hdlr)] := by
  induction n with
  | zero =>
    intro i res hres hok
    rw [show Window_init_loop u title mkObj reg 0 i =
        ⟨some (PyError.timeoutError (timeoutMsg title)), 0, reg⟩ from rfl] at hres
    rw [← hres] at hok
    simp at hok
  | succ n ih =>
    intro i res hres hok
    by_cases hz : u.FindWindowExW i title = 0
    · rw [loop_succ_next u title mkObj reg reg n i 0
        (step_find_zero u title mkObj reg i hz)] at hres
      exact ih (i + 1) res hres hok
    · by_cases hc : containsH reg (u.FindWindowExW i title) = true
      · cases herr : (Window_refresh u reg).err with
        | none =>
          rw [loop_succ_next u title mkObj reg reg n i 1
            (step_taken_ok u title mkObj reg i hz hc herr)] at hres
          exact ih (i + 1) res hres hok
        | some e =>
          rw [loop_succ_errored u title mkObj reg (Window_refresh u reg).handlers
            n i 1 e (step_taken_err u title mkObj reg i e hz hc herr)] at hres
          rw [← hres] at hok
          simp at hok
      · rw [Bool.not_eq_true] at hc
        rw [loop_succ_success u title mkObj reg
          (setH reg (u.FindWindowExW i title) (mkObj (u.FindWindowExW i title)))
          n i 0 (u.FindWindowExW i title)
          (step_fresh u title mkObj reg i hz hc)] at hres
        rw [← hres]
        have habs := (containsH_eq_false_iff reg (u.FindWindowExW i title)).mp hc
        exact ⟨habs, setH_absent reg (u.FindWindowExW i title)
          (mkObj (u.FindWindowExW i title)) habs⟩

/-- When every attempt either finds no window or finds a handle that the
registry still holds after a clean refresh, the loop exhausts its control
points, leaves the registry untouched, and ends in the for-else raise. -/
theorem Window_init_loop_timeout (u : User32) (title : String)
    (mkObj : Nat → WindowObj) (reg : Handlers) (n : Nat) : ∀ i,
    (∀ j, j < n →
      u.FindWindowExW (i + j) title = 0 ∨
      (containsH reg (u.FindWindowExW (i + j) title) = true ∧
       (Window_refresh u reg).err = none ∧
       containsH (Window_refresh u reg).handlers (u.FindWindowExW (i + j) title) = true)) →
    Window_init_loop u title mkObj reg n i =
      ⟨some (PyError.timeoutError (timeoutMsg title)), 0, reg⟩ := by
  induction n with
  | zero => intro i _; rfl
  | succ n ih =>
    intro i H
    have Hnext : ∀ j, j < n →
        u.FindWindowExW ((i + 1) + j) title = 0 ∨
        (containsH reg (u.FindWindowExW ((i + 1) + j) title) = true ∧
         (Window_refresh u reg).err = none ∧
         containsH (Window_refresh u reg).handlers
           (u.FindWindowExW ((i + 1) + j) title) = true) := by
      intro j hj
      have := H (j + 1) (by omega)
      rw [show i + (j + 1) = (i + 1) + j from by omega] at this
      exact this
    by_cases hz : u.FindWindowExW i title = 0
    · rw [loop_succ_next u title mkObj reg reg n i 0
        (step_find_zero u title mkObj reg i hz)]
      exact ih (i + 1) Hnext
    · have h0 := H 0 (by omega)
      rw [Nat.add_zero] at h0
      rcases h0 with h0 | ⟨hc, hr, _⟩
      · exact absurd h0 hz
      · rw [loop_succ_next u title mkObj reg reg n i 1
          (step_taken_ok u title mkObj reg i hz hc hr)]
        exact ih (i + 1) Hnext

/-- C1: For every reachable registry state, each OS handle value is owned
by at most one window object, and the acquisition procedure never
overwrites an existing registry entry: a successful constructor run
inserted its object under a handle that was absent from the registry at
the moment of insertion (the registry is unchanged until then, since a
refresh that deletes anything raises instead of returning), all previous
bindings survive unchanged, and distinct keys stay distinct. -/
theorem acquire_never_overwrites (u : User32) (title : String)
    (mkObj : Nat → WindowObj) (reg : Handlers) (n i : Nat) (res : AcqResult)
    (hres : Window_init_loop u title mkObj reg n i = res)
    (hok : res.err = none) :
    lookupH reg res.hdlr = none ∧
    res.handlers = reg ++ [(res.hdlr, mkObj res.hdlr)] ∧
    ((reg.map Prod.fst).Nodup → (res.handlers.map Prod.fst).Nodup) := by
  obtain ⟨h1, h2⟩ := Window_init_loop_success u title mkObj reg n i res hres hok
  exact ⟨h1, h2, fun hnd =>
    h2 ▸ nodup_keys_append reg res.hdlr (mkObj res.hdlr) hnd h1⟩

/-- Witness for C1: acquiring handle 7 on an empty registry. -/
theorem acquire_never_overwrites_witness :
    lookupH ([] : Handlers) (Window_init_loop uAll "t" Window_new [] 1 0).hdlr = none ∧
    (Window_init_loop uAll "t" Window_new [] 1 0).handlers =
      ([] : Handlers) ++ [((Window_init_loop uAll "t" Window_new [] 1 0).hdlr,
        Window_new (Window_init_loop uAll "t" Window_new [] 1 0).hdlr)] ∧
    ((([] : Handlers).map Prod.fst).Nodup →
      ((Window_init_loop uAll "t" Window_new [] 1 0).handlers.map Prod.fst).Nodup) :=
  acquire_never_overwrites uAll "t" Window_new [] 1 0 _ rfl rfl

/-- C4: the base liveness check is true iff the handle is a key of the
registry and the OS reports the window enabled. -/
theorem window_bool_iff (u : User32) (reg : Handlers) (w : WindowObj) :
    Window_bool u reg w = (containsH reg w.hdlr && u.IsWindowEnabled w.hdlr) := by
  unfold Window_bool
  cases containsH reg w.hdlr <;> simp

/-- C5 counterexample: after its handle value 5 is registered again on
behalf of a different, unrelated window object, the original object's
liveness check returns true again (the membership test looks only at the
key), so the claimed permanent deadness fails. -/
theorem handle_reuse_revives_liveness :
    Window_new 5 ≠ wOther ∧
    (Window_new 5).hdlr = 5 ∧
    lookupH [(5, wOther)] 5 = some wOther ∧
    isLive uAll [(5, wOther)] (Window_new 5) = true := by
  decide

/-- C5 amended: while a window object's handle value stays absent from the
registry, every liveness check on the object returns false (whatever its
class), and close never re-inserts the handle: it sends the WM_CLOSE
signal but hands the registry back unchanged.  (Permanence only holds
until the same integer handle is registered again for another object.) -/
theorem dead_while_absent (u : User32) (reg : Handlers) (w : WindowObj)
    (habs : lookupH reg w.hdlr = none) :
    isLive u reg w = false ∧
    Window_close u reg w = ⟨u.SendMessageW w.hdlr 0x0010 0 0, reg, [w.hdlr]⟩ := by
  have hc : containsH reg w.hdlr = false := (containsH_eq_false_iff reg w.hdlr).mpr habs
  refine ⟨isLive_false_of_not_contains u reg w hc, ?_⟩
  unfold Window_close
  rw [eraseH_absent reg w.hdlr habs]

/-- Witness for the amended C5: a base window whose handle is unregistered. -/
theorem dead_while_absent_witness :
    isLive uAll [] (Window_new 5) = false ∧
    Window_close uAll [] (Window_new 5) =
      ⟨uAll.SendMessageW (Window_new 5).hdlr 0x0010 0 0, [], [(Window_new 5).hdlr]⟩ :=
  dead_while_absent uAll [] (Window_new 5) rfl

/-- C8: an Explorer object's liveness check is true iff the core check is
true and, additionally, either allow_chdir was set at construction or the
current OS title equals the captured first-seen title. -/
theorem explorer_bool_iff (u : User32) (reg : Handlers) (w : WindowObj)
    (t : String) (hk : w.kind = WKind.explorer) (ht : w.firstTitle = some t) :
    Explorer_bool u reg w =
      (Window_bool u reg w && (w.allowChdir || (u.GetWindowTextW w.hdlr == t))) := by
  unfold Explorer_bool
  rw [ht]
  cases hb : Window_bool u reg w <;> cases ha : w.allowChdir <;> simp [ha]

/-- Witness for C8: a registered Explorer whose title has not drifted. -/
theorem explorer_bool_iff_witness :
    Explorer_bool uAll [(5, ⟨5, WKind.explorer, some "docs", false⟩)]
        ⟨5, WKind.explorer, some "docs", false⟩ =
      (Window_bool uAll [(5, ⟨5, WKind.explorer, some "docs", false⟩)]
          ⟨5, WKind.explorer, some "docs", false⟩ &&
        ((⟨5, WKind.explorer, some "docs", false⟩ : WindowObj).allowChdir ||
          (uAll.GetWindowTextW
            (⟨5, WKind.explorer, some "docs", false⟩ : WindowObj).hdlr == "docs"))) :=
  explorer_bool_iff uAll [(5, ⟨5, WKind.explorer, some "docs", false⟩)]
    ⟨5, WKind.explorer, some "docs", false⟩ "docs" rfl rfl

/-- C2: when an attempt finds a nonzero handle that is already a key of
the registry, it invokes Window.refresh exactly once; and if that refresh
returns normally with the handle still registered, the attempt claims
nothing (the step outcome is poll-again with the post-refresh registry, no
insertion, no success) and the loop proceeds to the next attempt. -/
theorem acquire_collision_reconciles_once (u : User32) (title : String)
    (mkObj : Nat → WindowObj) (reg : Handlers) (n i : Nat)
    (hz : ¬ u.FindWindowExW i title = 0)
    (hc : containsH reg (u.FindWindowExW i title) = true) :
    (Window_init_step u title mkObj reg i).refreshCalls = 1 ∧
    ((Window_refresh u reg).err = none →
     containsH (Window_refresh u reg).handlers (u.FindWindowExW i title) = true →
     Window_init_step u title mkObj reg i =
       ⟨StepOutcome.next (Window_refresh u reg).handlers, 1⟩ ∧
     Window_init_loop u title mkObj reg (n + 1) i =
       Window_init_loop u title mkObj (Window_refresh u reg).handlers n (i + 1)) := by
  constructor
  · cases herr : (Window_refresh u reg).err with
    | none => rw [step_taken_ok u title mkObj reg i hz hc herr]
    | some e => rw [step_taken_err u title mkObj reg i e hz hc herr]
  · intro hr _
    have hstep := step_taken_ok u title mkObj reg i hz hc hr
    have hreg : (Window_refresh u reg).handlers = reg := by
      rw [Window_refresh_ok u reg hr]
    refine ⟨by rw [hstep, hreg], ?_⟩
    rw [hreg]
    exact loop_succ_next u title mkObj reg reg n i 1 hstep

/-- Witness for C2: a second acquisition races for handle 7 while its
live owner is registered. -/
theorem acquire_collision_reconciles_once_witness :
    (Window_init_step uAll "Calc" Window_new [(7, Window_new 7)] 0).refreshCalls = 1 ∧
    ((Window_refresh uAll [(7, Window_new 7)]).err = none →
     containsH (Window_refresh uAll [(7, Window_new 7)]).handlers
       (uAll.FindWindowExW 0 "Calc") = true →
     Window_init_step uAll "Calc" Window_new [(7, Window_new 7)] 0 =
       ⟨StepOutcome.next (Window_refresh uAll [(7, Window_new 7)]).handlers, 1⟩ ∧
     Window_init_loop uAll "Calc" Window_new [(7, Window_new 7)] 1 0 =
       Window_init_loop uAll "Calc" Window_new
         (Window_refresh uAll [(7, Window_new 7)]).handlers 0 1) :=
  acquire_collision_reconciles_once uAll "Calc" Window_new [(7, Window_new 7)] 0 0
    (by decide) (by decide)

/-- C3: when every attempt either finds no window or finds a handle that a
cleanly returning refresh leaves registered, the polling loop ends in the
for-else TimeoutError whose message embeds the requested title, with the
registry unchanged; the constructor performs no further attempts after the
raise. -/
theorem acquire_timeout_carries_title (u : User32) (title : String)
    (mkObj : Nat → WindowObj) (reg : Handlers) (n i : Nat)
    (H : ∀ j, j < n →
      u.FindWindowExW (i + j) title = 0 ∨
      (containsH reg (u.FindWindowExW (i + j) title) = true ∧
       (Window_refresh u reg).err = none ∧
       containsH (Window_refresh u reg).handlers (u.FindWindowExW (i + j) title) = true)) :
    Window_init_loop u title mkObj reg n i =
      ⟨some (PyError.timeoutError (timeoutMsg title)), 0, reg⟩ ∧
    ∃ a b, timeoutMsg title = a ++ title ++ b :=
  ⟨Window_init_loop_timeout u title mkObj reg n i H,
   ⟨"ウィンドウ\"", "\"のハンドルを取得できませんでした。", rfl⟩⟩

/-- Witness for C3: two attempts against an environment where the title
never appears. -/
theorem acquire_timeout_carries_title_witness :
    Window_init_loop uNone "NotepadXYZ" Window_new [] 2 0 =
      ⟨some (PyError.timeoutError (timeoutMsg "NotepadXYZ")), 0, []⟩ ∧
    ∃ a b, timeoutMsg "NotepadXYZ" = a ++ "NotepadXYZ" ++ b :=
  acquire_timeout_carries_title uNone "NotepadXYZ" Window_new [] 2 0
    (fun _ _ => Or.inl rfl)

/-- C6: on a dead window each of move_window, set_position and set_size
performs close (WM_CLOSE signal sent, handle entry deleted) and returns
false without invoking MoveWindow; none of these paths can raise (the
model is a total function), and repeating any of the calls on the
still-dead object again returns false. -/
theorem dead_ops_close_and_fail (u : User32) (reg : Handlers) (w : WindowObj)
    (x y nw nh width height : Int) (hdead : isLive u reg w = false) :
    Window_move_window u reg w x y nw nh =
      ⟨false, eraseH reg w.hdlr, false, [w.hdlr]⟩ ∧
    Window_set_position u reg w x y =
      ⟨false, eraseH reg w.hdlr, false, [w.hdlr]⟩ ∧
    Window_set_size u reg w width height =
      ⟨false, eraseH reg w.hdlr, false, [w.hdlr]⟩ ∧
    isLive u (eraseH reg w.hdlr) w = false ∧
    (Window_move_window u (eraseH reg w.hdlr) w x y nw nh).ok = false ∧
    (Window_set_position u (eraseH reg w.hdlr) w x y).ok = false ∧
    (Window_set_size u (eraseH reg w.hdlr) w width height).ok = false := by
  have hdead2 : isLive u (eraseH reg w.hdlr) w = false :=
    isLive_false_of_not_contains u (eraseH reg w.hdlr) w
      (containsH_eraseH_self reg w.hdlr)
  refine ⟨?_, ?_, ?_, hdead2, ?_, ?_, ?_⟩ <;>
    simp [Window_move_window, Window_set_position, Window_set_size,
      Window_close, hdead, hdead2]

/-- Witness for C6: a registered but OS-disabled window. -/
theorem dead_ops_close_and_fail_witness :
    Window_move_window uNone [(5, Window_new 5)] (Window_new 5) 0 0 0 0 =
      ⟨false, eraseH [(5, Window_new 5)] (Window_new 5).hdlr, false, [(Window_new 5).hdlr]⟩ ∧
    Window_set_position uNone [(5, Window_new 5)] (Window_new 5) 0 0 =
      ⟨false, eraseH [(5, Window_new 5)] (Window_new 5).hdlr, false, [(Window_new 5).hdlr]⟩ ∧
    Window_set_size uNone [(5, Window_new 5)] (Window_new 5) 0 0 =
      ⟨false, eraseH [(5, Window_new 5)] (Window_new 5).hdlr, false, [(Window_new 5).hdlr]⟩ ∧
    isLive uNone (eraseH [(5, Window_new 5)] (Window_new 5).hdlr) (Window_new 5) = false ∧
    (Window_move_window uNone (eraseH [(5, Window_new 5)] (Window_new 5).hdlr)
      (Window_new 5) 0 0 0 0).ok = false ∧
    (Window_set_position uNone (eraseH [(5, Window_new 5)] (Window_new 5).hdlr)
      (Window_new 5) 0 0).ok = false ∧
    (Window_set_size uNone (eraseH [(5, Window_new 5)] (Window_new 5).hdlr)
      (Window_new 5) 0 0).ok = false :=
  dead_ops_close_and_fail uNone [(5, Window_new 5)] (Window_new 5) 0 0 0 0 0 0
    (by decide)

/-- C7: Window.refresh on a registry holding one stale window does NOT
complete without error.  It closes the stale entry (signal sent, entry
deleted) and then raises RuntimeError, because cls.close deletes from the
very dict the for-loop is iterating. -/
theorem refresh_raises_on_stale :
    Window_refresh uNone [(5, Window_new 5)] =
      ⟨some PyError.runtimeError, [], [5]⟩ := by
  decide

/-- C9 counterexample: the core acquisition succeeds, yet the constructed
base Window object carries no first-seen title at all (the base class
stores only self.__hdlr), so the claimed title storage fails for windows
acquired through the core algorithm. -/
theorem base_window_stores_no_title :
    (Window_init_loop uAll "t" Window_new [] 1 0).err = none ∧
    (Window_new (Window_init_loop uAll "t" Window_new [] 1 0).hdlr).firstTitle = none := by
  decide

/-- C9 amended: the core acquisition stores only the handle; it is the
Explorer variant that, immediately after a successful acquisition,
captures the current OS title of the acquired handle as its immutable
first-seen title, and the registered object carries both the handle and
that title. -/
theorem explorer_stores_first_title (u : User32) (title : String) (ac : Bool)
    (reg : Handlers) (n i : Nat) (res : AcqResult)
    (hres : Window_init_loop u title (Explorer_new u ac) reg n i = res)
    (hok : res.err = none) :
    lookupH res.handlers res.hdlr =
      some ⟨res.hdlr, WKind.explorer, some (u.GetWindowTextW res.hdlr), ac⟩ := by
  obtain ⟨h1, h2⟩ :=
    Window_init_loop_success u title (Explorer_new u ac) reg n i res hres hok
  rw [h2]
  exact lookupH_append_self reg res.hdlr (Explorer_new u ac res.hdlr) h1

/-- Witness for the amended C9: an Explorer acquiring handle 7. -/
theorem explorer_stores_first_title_witness :
    lookupH (Window_init_loop uAll "docs" (Explorer_new uAll true) [] 1 0).handlers
        (Window_init_loop uAll "docs" (Explorer_new uAll true) [] 1 0).hdlr =
      some ⟨(Window_init_loop uAll "docs" (Explorer_new uAll true) [] 1 0).hdlr,
        WKind.explorer,
        some (uAll.GetWindowTextW
          (Window_init_loop uAll "docs" (Explorer_new uAll true) [] 1 0).hdlr), true⟩ :=
  explorer_stores_first_title uAll "docs" true [] 1 0 _ rfl rfl

/-- C10: the size property first checks liveness; dead objects are closed
and get the (-1, -1) sentinel with no rectangle query, live objects get
the absolute coordinate differences of the OS rectangle. -/
theorem size_dead_sentinel_live_rect (u : User32) (reg : Handlers) (w : WindowObj) :
    (isLive u reg w = false →
      Window_size u reg w = ⟨(-1, -1), eraseH reg w.hdlr, false, [w.hdlr]⟩) ∧
    (isLive u reg w = true →
      Window_size u reg w =
        ⟨(|(u.GetWindowRect w.hdlr).left - (u.GetWindowRect w.hdlr).right|,
          |(u.GetWindowRect w.hdlr).top - (u.GetWindowRect w.hdlr).bottom|),
         reg, true, []⟩) := by
  constructor <;> intro h <;> simp [Window_size, Window_close, h]

/-- Witness for C10: one dead and one live instance. -/
theorem size_dead_sentinel_live_rect_witness :
    Window_size uNone [(5, Window_new 5)] (Window_new 5) =
      ⟨(-1, -1), eraseH [(5, Window_new 5)] (Window_new 5).hdlr, false,
       [(Window_new 5).hdlr]⟩ ∧
    Window_size uAll [(7, Window_new 7)] (Window_new 7) =
      ⟨(|(uAll.GetWindowRect (Window_new 7).hdlr).left -
          (uAll.GetWindowRect (Window_new 7).hdlr).right|,
        |(uAll.GetWindowRect (Window_new 7).hdlr).top -
          (uAll.GetWindowRect (Window_new 7).hdlr).bottom|),
       [(7, Window_new 7)], true, []⟩ :=
  ⟨(size_dead_sentinel_live_rect uNone [(5, Window_new 5)] (Window_new 5)).1 (by decide),
   (size_dead_sentinel_live_rect uAll [(7, Window_new 7)] (Window_new 7)).2 (by decide)⟩
